import Mathlib

-- Verification of the generation-backend selection and fallback layer of
-- app.py (a Flask SEO-content gateway).  The Python module state and the
-- functions initialize_hf_pipeline / generate_text, together with the API
-- request handlers, are embedded as pure Lean functions.  External effects
-- (the Ollama chat call, the Hugging Face pipeline construction and
-- invocation) are supplied as oracle parameters in a `Backends` record;
-- `Except` models a Python call that either returns or raises.

namespace App

/-- Python `s.startswith(pre)` on code points: `pre.data` is a list prefix of `s.data`. -/
def pyStartsWith (s pre : String) : Bool :=
  pre.data.isPrefixOf s.data

/-- Python slice `s[n:]` by code points. -/
def pyDrop (s : String) (n : Nat) : String :=
  ⟨s.data.drop n⟩

/-- Python slice `s[:n]` by code points. -/
def pyTake (s : String) (n : Nat) : String :=
  ⟨s.data.take n⟩

/-- Python `s.lstrip()`: remove leading whitespace characters. -/
def pyLStrip (s : String) : String :=
  ⟨s.data.dropWhile Char.isWhitespace⟩

/-- Scan helper for the Python substring test `sub in s`. -/
def py_in_aux (sub : List Char) : List Char → Bool
  | [] => sub.isPrefixOf []
  | a :: t => sub.isPrefixOf (a :: t) || py_in_aux sub t

/-- Python substring test `sub in s`. -/
def py_in (sub s : String) : Bool :=
  py_in_aux sub.data s.data

/-- Python truthiness of an optional string field (`if not x`): absent or empty is falsy. -/
def pyTruthy : Option String → Bool
  | none => false
  | some s => !(s == "")

/-- Log severities used by the module (`logging.info` / `warning` / `error`). -/
inductive LogLevel where
  | info
  | warning
  | error
deriving DecidableEq, Repr, BEq

/-- One log line: severity and message. -/
abbrev LogEntry := LogLevel × String

/-- Configuration constant OLLAMA_MODEL of app.py. -/
def OLLAMA_MODEL : String := "gemma3:1b"

/-- Configuration constant HF_MODEL_FALLBACK of app.py. -/
def HF_MODEL_FALLBACK : String := "google/gemma-2b"

/-- Process-wide mutable state of app.py: the import-time flag
TRANSFORMERS_AVAILABLE and the globals ollama_available, hf_pipeline
(presence of the lazily built pipeline handle) and GENERATION_METHOD. -/
structure AppState where
  TRANSFORMERS_AVAILABLE : Bool
  ollama_available : Bool
  hf_pipeline : Option Unit
  GENERATION_METHOD : String
deriving DecidableEq, Repr

/-- External effects: `ollama.chat` on a prompt, the Hugging Face
`pipeline(...)` construction, and an invocation of the built pipeline on a
prompt (its `generated_text`).  `Except.error e` models a raised exception
with text `e`. -/
structure Backends where
  ollama_chat : String → Except String String
  hf_build : Except String Unit
  hf_generate : String → Except String String

/-- Result of one call to initialize_hf_pipeline: the returned Bool, the
updated globals, the log lines emitted, and how many times the
`pipeline(...)` construction step actually ran. -/
structure InitResult where
  ret : Bool
  state : AppState
  logs : List LogEntry
  pipeline_builds : Nat
deriving DecidableEq, Repr

/-- Embedding of initialize_hf_pipeline (app.py lines 53-80). -/
def initialize_hf_pipeline (B : Backends) (s : AppState) : InitResult :=
  if s.TRANSFORMERS_AVAILABLE = false then
    { ret := false
      state := { s with GENERATION_METHOD := "Error: Transformers Missing" }
      logs := [(.error, "Transformers library not installed. Cannot initialize Hugging Face pipeline.")]
      pipeline_builds := 0 }
  else if s.hf_pipeline = none then
    match B.hf_build with
    | .ok _ =>
      { ret := true
        state := { s with hf_pipeline := some (), GENERATION_METHOD := "Hugging Face" }
        logs := [(.info, "Initializing Hugging Face fallback pipeline with model: " ++ HF_MODEL_FALLBACK ++ "..."),
                 (.info, "Hugging Face pipeline initialized successfully.")]
        pipeline_builds := 1 }
    | .error e =>
      { ret := false
        state := { s with hf_pipeline := none, GENERATION_METHOD := "Error: HF Init Failed" }
        logs := [(.info, "Initializing Hugging Face fallback pipeline with model: " ++ HF_MODEL_FALLBACK ++ "..."),
                 (.error, "Failed to initialize Hugging Face pipeline (" ++ HF_MODEL_FALLBACK ++ "): " ++ e)]
        pipeline_builds := 1 }
  else
    { ret := true, state := s, logs := [], pipeline_builds := 0 }

/-- Per-call outcome of the try-block of generate_text (app.py lines 89-131):
the local variables source / result_text / error_message, the globals after
the block, the log lines, and counters for how often
initialize_hf_pipeline was entered, the pipeline construction ran, and each
backend was invoked. -/
structure TryOutcome where
  source : String
  result_text : String
  error_message : Option String
  state : AppState
  logs : List LogEntry
  init_calls : Nat
  pipeline_builds : Nat
  ollama_calls : Nat
  hf_calls : Nat
deriving DecidableEq, Repr

/-- Source label of the primary path, `f"Ollama ({OLLAMA_MODEL})"`. -/
def ollama_source : String := "Ollama (" ++ OLLAMA_MODEL ++ ")"

/-- Source label of the secondary path, `f"Hugging Face ({HF_MODEL_FALLBACK})"`. -/
def hf_source : String := "Hugging Face (" ++ HF_MODEL_FALLBACK ++ ")"

/-- Error message built at app.py line 102 when lazy initialization fails. -/
def hf_init_fail_msg : String :=
  "Error: Failed to initialize Hugging Face fallback model (" ++ HF_MODEL_FALLBACK ++ ")."

/-- Error message at app.py line 118 (pipeline absent after an attempt). -/
def hf_absent_msg : String :=
  "Error: Hugging Face pipeline is not available after initialization attempt."

/-- Error message at app.py line 123 (no Ollama and no transformers). -/
def no_backend_msg : String :=
  "Error: Ollama is unavailable and the Transformers library is not installed. Cannot generate text."

/-- Continuation of the Hugging Face branch after the optional lazy init
(app.py lines 107-120): invoke the pipeline if present, else report.
`source0` is the Hugging Face source label used in log texts, `src` and
`err` are the current values of the source / error_message variables. -/
def hf_invoke_or_report (B : Backends) (s1 : AppState) (prompt tool_name source0 : String)
    (err : Option String) (src : String) (logs1 : List LogEntry) (ic pb : Nat) : TryOutcome :=
  match s1.hf_pipeline with
  | some _ =>
    match B.hf_generate prompt with
    | .ok gtext =>
      let rt := if pyStartsWith gtext prompt then pyLStrip (pyDrop gtext prompt.length) else gtext
      { source := src, result_text := rt, error_message := err, state := s1
        logs := logs1 ++ [(.info, "Received response from " ++ source0 ++ " for " ++ tool_name ++ ".")]
        init_calls := ic, pipeline_builds := pb, ollama_calls := 0, hf_calls := 1 }
    | .error e =>
      { source := "Error", result_text := ""
        error_message := some ("Error during text generation using " ++ source0 ++ ": " ++ e)
        state := s1
        logs := logs1 ++ [(.error, "Error during text generation via " ++ source0 ++ " for " ++ tool_name ++ ": " ++ e)]
        init_calls := ic, pipeline_builds := pb, ollama_calls := 0, hf_calls := 1 }
  | none =>
    match err with
    | none =>
      { source := "Error", result_text := "", error_message := some hf_absent_msg, state := s1
        logs := logs1 ++ [(.error, hf_absent_msg)]
        init_calls := ic, pipeline_builds := pb, ollama_calls := 0, hf_calls := 0 }
    | some _ =>
      { source := src, result_text := "", error_message := err, state := s1, logs := logs1
        init_calls := ic, pipeline_builds := pb, ollama_calls := 0, hf_calls := 0 }

/-- Hugging Face branch of generate_text (app.py lines 96-120): lazy init
when the handle is absent, then invoke-or-report. -/
def hf_branch (B : Backends) (s : AppState) (prompt tool_name : String) : TryOutcome :=
  let source := hf_source
  let logs0 : List LogEntry :=
    [(.info, "Ollama unavailable. Attempting generation via " ++ source ++ " for " ++ tool_name ++ "...")]
  match s.hf_pipeline with
  | some _ => hf_invoke_or_report B s prompt tool_name source none source logs0 0 0
  | none =>
    let ir := initialize_hf_pipeline B s
    if ir.ret then
      hf_invoke_or_report B ir.state prompt tool_name source none source
        (logs0 ++ ir.logs) 1 ir.pipeline_builds
    else
      hf_invoke_or_report B ir.state prompt tool_name source (some hf_init_fail_msg) "Error"
        (logs0 ++ ir.logs ++ [(.error, hf_init_fail_msg)]) 1 ir.pipeline_builds

/-- Try-block of generate_text (app.py lines 89-131): primary path when
ollama_available, else the Hugging Face branch when TRANSFORMERS_AVAILABLE,
else the no-backend error. -/
def generate_text_body (B : Backends) (s : AppState) (prompt tool_name : String) : TryOutcome :=
  if s.ollama_available then
    let source := ollama_source
    let logA : LogEntry := (.info, "Attempting generation via " ++ source ++ " for " ++ tool_name ++ "...")
    match B.ollama_chat prompt with
    | .ok content =>
      { source := source, result_text := content, error_message := none, state := s
        logs := [logA, (.info, "Received response from " ++ source ++ " for " ++ tool_name ++ ".")]
        init_calls := 0, pipeline_builds := 0, ollama_calls := 1, hf_calls := 0 }
    | .error e =>
      { source := "Error", result_text := ""
        error_message := some ("Error during text generation using " ++ source ++ ": " ++ e)
        state := s
        logs := [logA, (.error, "Error during text generation via " ++ source ++ " for " ++ tool_name ++ ": " ++ e)]
        init_calls := 0, pipeline_builds := 0, ollama_calls := 1, hf_calls := 0 }
  else if s.TRANSFORMERS_AVAILABLE then
    hf_branch B s prompt tool_name
  else
    { source := "Error", result_text := "", error_message := some no_backend_msg, state := s
      logs := [(.error, no_backend_msg)]
      init_calls := 0, pipeline_builds := 0, ollama_calls := 0, hf_calls := 0 }

/-- Success banner template of app.py line 135. -/
def result_banner (tool_name source timestamp result_text : String) : String :=
  "--- Wolfgank AI [" ++ tool_name ++ "] Result (" ++ source ++ " @ " ++ timestamp ++ ") ---\n\n"
    ++ result_text ++ "\n\n--- End of Report ---"

/-- Supplementary fallback-status text of app.py lines 139-145, computed
from the globals at formatting time. -/
def fallback_info (s : AppState) : String :=
  if pyStartsWith s.GENERATION_METHOD "Error" then
    " Fallback Status: " ++ s.GENERATION_METHOD ++ "."
  else if !s.ollama_available && !s.TRANSFORMERS_AVAILABLE then
    " Fallback attempted but Transformers library is missing."
  else if !s.ollama_available && s.hf_pipeline.isNone then
    " Fallback attempted but HF model (" ++ HF_MODEL_FALLBACK ++ ") failed to initialize."
  else
    ""

/-- Error banner template of app.py line 148. -/
def error_banner (timestamp final_error_message fb : String) : String :=
  "--- Wolfgank AI Error (" ++ timestamp ++ ") ---\n\n" ++ final_error_message ++ fb
    ++ "\nPlease check logs and model availability.\n\n--- End of Report ---"

/-- Full result of a call to generate_text: the returned string plus the
try-block observables. -/
structure GenResult where
  output : String
  source : String
  result_text : String
  error_message : Option String
  state : AppState
  logs : List LogEntry
  init_calls : Nat
  pipeline_builds : Nat
  ollama_calls : Nat
  hf_calls : Nat
deriving DecidableEq, Repr

/-- Formatting step of generate_text (app.py lines 132-148). -/
def finish_generate (timestamp tool_name : String) (t : TryOutcome) : GenResult :=
  { output :=
      if t.source = "Error" then
        error_banner timestamp
          (t.error_message.getD "An unknown error occurred during text generation.")
          (fallback_info t.state)
      else
        result_banner tool_name t.source timestamp t.result_text
    source := t.source, result_text := t.result_text, error_message := t.error_message
    state := t.state, logs := t.logs, init_calls := t.init_calls
    pipeline_builds := t.pipeline_builds, ollama_calls := t.ollama_calls, hf_calls := t.hf_calls }

/-- Embedding of generate_text (app.py lines 82-148).  `timestamp` stands
for `datetime.now().strftime(...)`. -/
def generate_text (B : Backends) (timestamp : String) (s : AppState)
    (prompt tool_name : String) : GenResult :=
  finish_generate timestamp tool_name (generate_text_body B s prompt tool_name)

/-- JSON body of an API response: a `result` field or an `error` field. -/
inductive ApiResponse where
  | ok (result : String)
  | err (error : String)
deriving DecidableEq, Repr

/-- HTTP outcome of one API handler call: status code, JSON body, and the
generate_text call it made (none when generation was never invoked). -/
structure HandlerResult where
  status : Nat
  body : ApiResponse
  gen : Option GenResult
deriving DecidableEq, Repr

/-- Marker substring the handlers test for with Python `in` (app.py line 177). -/
def error_marker : String := "--- Wolfgank AI Error"

/-- Prompt template of the keyword-hunter handler (app.py line 173). -/
def keyword_hunter_prompt (topic : String) : String :=
  "Berikan daftar 15-20 kata kunci SEO long-tail yang relevan untuk topik: '" ++ topic
    ++ "'. Kategorikan kata kunci ini (misalnya, Informatif, Navigasi, Transaksional, Komersial). Fokus pada Bahasa Indonesia. Format sebagai daftar."

/-- Shared response shaping of the handlers (app.py lines 177-179): 500
with the banner in the error field when it contains the error marker,
else 200 with it in the result field. -/
def wrap_generation (r : GenResult) : HandlerResult :=
  if py_in error_marker r.output then
    { status := 500, body := .err r.output, gen := some r }
  else
    { status := 200, body := .ok r.output, gen := some r }

/-- Embedding of the /api/keyword-hunter handler (app.py lines 165-182);
`topic` is `data.get('topic')`. -/
def keyword_hunter (B : Backends) (timestamp : String) (s : AppState)
    (topic : Option String) : HandlerResult :=
  if !pyTruthy topic then
    { status := 400, body := .err "Topik diperlukan.", gen := none }
  else
    wrap_generation (generate_text B timestamp s (keyword_hunter_prompt (topic.getD "")) "Keyword Hunter")

/-- Prompt template of the meta-master handler (app.py line 193). -/
def meta_master_prompt (content keywords : String) : String :=
  "Buatlah Judul SEO (Meta Title) yang menarik (maksimal 60 karakter) dan Deskripsi Meta (Meta Description) yang efektif (maksimal 160 karakter) dalam Bahasa Indonesia untuk konten berikut. Jika ada, pertimbangkan kata kunci ini: '"
    ++ keywords ++ "'.\n\nKonten:\n" ++ pyTake content 1000 ++ "..."

/-- Embedding of the /api/meta-master handler (app.py lines 185-200);
`content` is `data.get('content')`, `keywords` is `data.get('keywords', '')`. -/
def meta_master (B : Backends) (timestamp : String) (s : AppState)
    (content keywords : Option String) : HandlerResult :=
  if !pyTruthy content then
    { status := 400, body := .err "Konten diperlukan.", gen := none }
  else
    wrap_generation
      (generate_text B timestamp s (meta_master_prompt (content.getD "") (keywords.getD "")) "Meta Master")

/-! Helper lemmas about the Python string primitives. -/

theorem py_in_aux_iff (sub l : List Char) : py_in_aux sub l = true ↔ sub <:+: l := by
  induction l with
  | nil => simp [ py_in_aux]
  | cons a t ih => simp [ py_in_aux, ih, List.infix_cons_iff]

theorem py_in_of_infix (sub s : String) (h : sub.data <:+: s.data) : py_in sub s = true := by
  simpa [ py_in, py_in_aux_iff] using h

theorem pyStartsWith_iff (s pre : String) : pyStartsWith s pre = true ↔ pre.data <+: s.data := by
  simp [ pyStartsWith]

theorem pyStartsWith_append (p c : String) : pyStartsWith (p ++ c) p = true := by
  simp [ pyStartsWith]

/-! Concrete fixtures used by the witness theorems. -/

/-- Backends where every external call succeeds. -/
def B_ok : Backends :=
  { ollama_chat := fun _ => .ok "hasil utama"
    hf_build := .ok ()
    hf_generate := fun _ => .ok "hasil cadangan" }

/-- Backends where every external call raises. -/
def B_err : Backends :=
  { ollama_chat := fun _ => .error "connection refused"
    hf_build := .error "load failed"
    hf_generate := fun _ => .error "out of memory" }

/-- State after a successful startup probe of the primary service. -/
def s_primary : AppState :=
  { TRANSFORMERS_AVAILABLE := true, ollama_available := true
    hf_pipeline := none, GENERATION_METHOD := "Ollama (gemma3:1b)" }

/-- State with the primary down and the secondary pipeline already built. -/
def s_hf : AppState :=
  { TRANSFORMERS_AVAILABLE := true, ollama_available := false
    hf_pipeline := some (), GENERATION_METHOD := "Hugging Face" }

/-- State with the primary down and the secondary pipeline not yet built. -/
def s_hf0 : AppState :=
  { TRANSFORMERS_AVAILABLE := true, ollama_available := false
    hf_pipeline := none, GENERATION_METHOD := "None" }

/-- State with the primary down and no transformers dependency. -/
def s_none : AppState :=
  { TRANSFORMERS_AVAILABLE := false, ollama_available := false
    hf_pipeline := none, GENERATION_METHOD := "None" }

/-! Claims. -/

/-- C1: when ollama_available is true, generate_text invokes only the
primary Ollama backend (one Ollama call, no Hugging Face call), never
enters initialize_hf_pipeline, never runs the pipeline construction, and
leaves hf_pipeline and GENERATION_METHOD unchanged. -/
theorem generate_text_primary_only (B : Backends) (ts p t : String) (s : AppState)
    (h : s.ollama_available = true) :
    (generate_text B ts s p t).ollama_calls = 1 ∧
    (generate_text B ts s p t).hf_calls = 0 ∧
    (generate_text B ts s p t).init_calls = 0 ∧
    (generate_text B ts s p t).pipeline_builds = 0 ∧
    (generate_text B ts s p t).state.hf_pipeline = s.hf_pipeline ∧
    (generate_text B ts s p t).state.GENERATION_METHOD = s.GENERATION_METHOD := by
  unfold generate_text finish_generate generate_text_body
  rw [h]
  rcases hB : B.ollama_chat p with c | e <;> simp [hB]

/-- Witness for C1 at a concrete backend, state, prompt and tool name. -/
theorem generate_text_primary_only_check :
    (generate_text B_ok "2025-01-01 00:00:00" s_primary "p" "Keyword Hunter").ollama_calls = 1 ∧
    (generate_text B_ok "2025-01-01 00:00:00" s_primary "p" "Keyword Hunter").hf_calls = 0 ∧
    (generate_text B_ok "2025-01-01 00:00:00" s_primary "p" "Keyword Hunter").init_calls = 0 ∧
    (generate_text B_ok "2025-01-01 00:00:00" s_primary "p" "Keyword Hunter").pipeline_builds = 0 ∧
    (generate_text B_ok "2025-01-01 00:00:00" s_primary "p" "Keyword Hunter").state.hf_pipeline = s_primary.hf_pipeline ∧
    (generate_text B_ok "2025-01-01 00:00:00" s_primary "p" "Keyword Hunter").state.GENERATION_METHOD = s_primary.GENERATION_METHOD :=
  generate_text_primary_only B_ok "2025-01-01 00:00:00" "p" "Keyword Hunter" s_primary rfl

theorem pyDrop_append (p c : String) : pyDrop (p ++ c) p.length = c := by
  show String.mk ((p.data ++ c.data).drop p.length) = c
  rw [List.drop_left' (String.length_data p)]

/-- Backend fixture whose secondary pipeline echoes the prompt followed by
a fixed continuation. -/
def B_echo : Backends :=
  { ollama_chat := fun _ => .error "down"
    hf_build := .ok ()
    hf_generate := fun q => .ok (q ++ " kelanjutan") }

/-- C2: when the secondary pipeline is used and its raw output is the
prompt followed by a continuation, result_text is the continuation with
the prompt prefix removed exactly once and leading whitespace stripped;
when the output does not start with the prompt it is left unmodified. -/
theorem generate_text_echo_strip (B : Backends) (ts p t cont : String) (s : AppState)
    (h1 : s.ollama_available = false) (h2 : s.TRANSFORMERS_AVAILABLE = true)
    (h3 : s.hf_pipeline = some ()) :
    (B.hf_generate p = .ok (p ++ cont) →
      (generate_text B ts s p t).result_text = pyLStrip cont) ∧
    (∀ out, B.hf_generate p = .ok out → pyStartsWith out p = false →
      (generate_text B ts s p t).result_text = out) := by
  unfold generate_text finish_generate generate_text_body hf_branch hf_invoke_or_report
  rw [h1, h2, h3]
  constructor
  · intro he
    simp [he, pyStartsWith_append, pyDrop_append]
  · intro out he hs
    simp [he, hs]

/-- Witness for C2: the echoed prompt is stripped and the whitespace
trimmed at a concrete prompt and continuation. -/
theorem generate_text_echo_strip_check :
    (generate_text B_echo "ts0" s_hf "Halo" "Meta Master").result_text = pyLStrip " kelanjutan" ∧
    pyLStrip " kelanjutan" = "kelanjutan" :=
  ⟨(generate_text_echo_strip B_echo "ts0" "Halo" "Meta Master" " kelanjutan" s_hf rfl rfl rfl).1 rfl,
   by decide⟩

/-- C4: initialize_hf_pipeline is idempotent after success.  If the handle
is already present (in any reachable state, where presence of the handle
implies the transformers dependency is available) the call returns true at
once, without running the construction step and without touching the
state; and starting from an absent handle with a succeeding construction,
the first call builds exactly once and the second call builds zero
additional times, leaving the state of the first call intact. -/
theorem initialize_hf_pipeline_idempotent (B : Backends) (s : AppState) :
    (s.hf_pipeline.isSome = true → s.TRANSFORMERS_AVAILABLE = true →
      initialize_hf_pipeline B s = { ret := true, state := s, logs := [], pipeline_builds := 0 }) ∧
    (s.hf_pipeline = none → s.TRANSFORMERS_AVAILABLE = true → B.hf_build = .ok () →
      (initialize_hf_pipeline B s).ret = true ∧
      (initialize_hf_pipeline B s).pipeline_builds = 1 ∧
      (initialize_hf_pipeline B (initialize_hf_pipeline B s).state).ret = true ∧
      (initialize_hf_pipeline B (initialize_hf_pipeline B s).state).pipeline_builds = 0 ∧
      (initialize_hf_pipeline B (initialize_hf_pipeline B s).state).state =
        (initialize_hf_pipeline B s).state) := by
  constructor
  · intro h1 h2
    rcases Option.isSome_iff_exists.mp h1 with ⟨u, hu⟩
    simp [initialize_hf_pipeline, h2, hu]
  · intro h1 h2 h3
    simp [initialize_hf_pipeline, h1, h2, h3]

/-- Witness for C4: at a concrete state with the handle present the call
is the identity with zero builds, and from an absent handle two sequential
calls build exactly once in total. -/
theorem initialize_hf_pipeline_idempotent_check :
    initialize_hf_pipeline B_ok s_hf = { ret := true, state := s_hf, logs := [], pipeline_builds := 0 } ∧
    ((initialize_hf_pipeline B_ok s_hf0).ret = true ∧
      (initialize_hf_pipeline B_ok s_hf0).pipeline_builds = 1 ∧
      (initialize_hf_pipeline B_ok (initialize_hf_pipeline B_ok s_hf0).state).ret = true ∧
      (initialize_hf_pipeline B_ok (initialize_hf_pipeline B_ok s_hf0).state).pipeline_builds = 0 ∧
      (initialize_hf_pipeline B_ok (initialize_hf_pipeline B_ok s_hf0).state).state =
        (initialize_hf_pipeline B_ok s_hf0).state) :=
  ⟨(initialize_hf_pipeline_idempotent B_ok s_hf).1 rfl rfl,
   (initialize_hf_pipeline_idempotent B_ok s_hf0).2 rfl rfl rfl⟩

/-! Shape lemmas on the formatting step and the two banner templates. -/

theorem finish_output_error (ts tn : String) (b : TryOutcome) (h : b.source = "Error") :
    (finish_generate ts tn b).output =
      error_banner ts (b.error_message.getD "An unknown error occurred during text generation.")
        (fallback_info b.state) := by
  simp [finish_generate, h]

theorem finish_output_ok (ts tn : String) (b : TryOutcome) (h : ¬ b.source = "Error") :
    (finish_generate ts tn b).output = result_banner tn b.source ts b.result_text := by
  simp [finish_generate, h]

theorem result_banner_starts (tn src ts rt m : String)
    (h : m.data <+: "--- Wolfgank AI [".data) :
    pyStartsWith (result_banner tn src ts rt) m = true := by
  rw [pyStartsWith_iff]
  simp only [result_banner, String.data_append, List.append_assoc]
  exact h.trans (List.prefix_append _ _)

theorem error_banner_starts (ts fm fb m : String)
    (h : m.data <+: "--- Wolfgank AI Error (".data) :
    pyStartsWith (error_banner ts fm fb) m = true := by
  rw [pyStartsWith_iff]
  simp only [error_banner, String.data_append, List.append_assoc]
  exact h.trans (List.prefix_append _ _)

theorem result_banner_ends (tn src ts rt : String) :
    "--- End of Report ---".data <:+ (result_banner tn src ts rt).data := by
  unfold result_banner
  rw [String.data_append]
  exact List.IsSuffix.trans (by decide) (List.suffix_append _ _)

theorem error_banner_ends (ts fm fb : String) :
    "--- End of Report ---".data <:+ (error_banner ts fm fb).data := by
  unfold error_banner
  rw [String.data_append]
  exact List.IsSuffix.trans (by decide) (List.suffix_append _ _)

theorem result_banner_not_error_marker (tn src ts rt : String) :
    pyStartsWith (result_banner tn src ts rt) "--- Wolfgank AI Error" = false := by
  refine Bool.eq_false_iff.mpr fun h' => ?_
  rw [pyStartsWith_iff] at h'
  have hlit : "--- Wolfgank AI [".data <+: (result_banner tn src ts rt).data := by
    simp only [result_banner, String.data_append, List.append_assoc]
    exact List.prefix_append _ _
  rcases List.prefix_or_prefix_of_prefix h' hlit with h3 | h3
  · exact absurd h3 (by decide)
  · exact absurd h3 (by decide)

/-- C6: every call that ends with a non-error source returns exactly the
fixed banner template containing the tool name, the source identifier, the
generation timestamp, the result text, and the closing marker (which the
template ends with). -/
theorem generate_text_success_banner (B : Backends) (ts : String) (s : AppState) (p t : String)
    (h : (generate_text B ts s p t).source ≠ "Error") :
    (generate_text B ts s p t).output =
      result_banner t (generate_text B ts s p t).source ts (generate_text B ts s p t).result_text ∧
    "--- End of Report ---".data <:+ (generate_text B ts s p t).output.data := by
  have ho : (generate_text B ts s p t).output =
      result_banner t (generate_text B ts s p t).source ts (generate_text B ts s p t).result_text :=
    finish_output_ok ts t (generate_text_body B s p t) h
  exact ⟨ho, by rw [ho]; exact result_banner_ends _ _ _ _⟩

/-- Witness for C6 at a concrete successful primary generation. -/
theorem generate_text_success_banner_check :
    (generate_text B_ok "ts0" s_primary "p" "Keyword Hunter").output =
      result_banner "Keyword Hunter" (generate_text B_ok "ts0" s_primary "p" "Keyword Hunter").source
        "ts0" (generate_text B_ok "ts0" s_primary "p" "Keyword Hunter").result_text ∧
    "--- End of Report ---".data <:+ (generate_text B_ok "ts0" s_primary "p" "Keyword Hunter").output.data :=
  generate_text_success_banner B_ok "ts0" s_primary "p" "Keyword Hunter" (by decide)

/-- C7: every call that ends with source = "Error" returns the distinct
error banner built from the timestamp, the error text and the
fallback-status text; and the fallback-status text is derived from the
formatting-time state by first reporting an error-tagged
GENERATION_METHOD, then the missing transformers dependency, then the
absent pipeline handle, in that order. -/
theorem generate_text_error_report (B : Backends) (ts : String) (s : AppState) (p t : String)
    (h : (generate_text B ts s p t).source = "Error") :
    (generate_text B ts s p t).output =
      error_banner ts
        ((generate_text B ts s p t).error_message.getD "An unknown error occurred during text generation.")
        (fallback_info (generate_text B ts s p t).state) ∧
    (∀ st : AppState, pyStartsWith st.GENERATION_METHOD "Error" = true →
      fallback_info st = " Fallback Status: " ++ st.GENERATION_METHOD ++ ".") ∧
    (∀ st : AppState, pyStartsWith st.GENERATION_METHOD "Error" = false →
      st.ollama_available = false → st.TRANSFORMERS_AVAILABLE = false →
      fallback_info st = " Fallback attempted but Transformers library is missing.") ∧
    (∀ st : AppState, pyStartsWith st.GENERATION_METHOD "Error" = false →
      st.ollama_available = false → st.TRANSFORMERS_AVAILABLE = true → st.hf_pipeline = none →
      fallback_info st = " Fallback attempted but HF model (" ++ HF_MODEL_FALLBACK ++ ") failed to initialize.") := by
  refine ⟨finish_output_error ts t (generate_text_body B s p t) h, ?_, ?_, ?_⟩
  · intro st h1
    simp [fallback_info, h1]
  · intro st h1 h2 h3
    simp [fallback_info, h1, h2, h3]
  · intro st h1 h2 h3 h4
    simp [fallback_info, h1, h2, h3, h4]

/-- Witness for C7 at a concrete failing state (no primary, no
transformers dependency). -/
theorem generate_text_error_report_check :
    (generate_text B_err "ts0" s_none "p" "News Radar").output =
      error_banner "ts0"
        ((generate_text B_err "ts0" s_none "p" "News Radar").error_message.getD "An unknown error occurred during text generation.")
        (fallback_info (generate_text B_err "ts0" s_none "p" "News Radar").state) ∧
    fallback_info s_none = " Fallback attempted but Transformers library is missing." :=
  ⟨(generate_text_error_report B_err "ts0" s_none "p" "News Radar" (by decide)).1,
   (generate_text_error_report B_err "ts0" s_none "p" "News Radar" (by decide)).2.2.1 s_none
     (by decide) rfl rfl⟩

/-- C10: every string generate_text returns opens with a banner prefix
starting "--- Wolfgank AI" and ends with the closing marker
"--- End of Report ---", and the banner prefix is the error marker
"--- Wolfgank AI Error" exactly when the final source is "Error". -/
theorem generate_text_banner_invariant (B : Backends) (ts : String) (s : AppState) (p t : String) :
    pyStartsWith (generate_text B ts s p t).output "--- Wolfgank AI " = true ∧
    "--- End of Report ---".data <:+ (generate_text B ts s p t).output.data ∧
    (pyStartsWith (generate_text B ts s p t).output "--- Wolfgank AI Error" = true ↔
      (generate_text B ts s p t).source = "Error") := by
  unfold generate_text
  by_cases hsrc : (generate_text_body B s p t).source = "Error"
  · refine ⟨?_, ?_, ?_⟩
    · rw [finish_output_error ts t _ hsrc]
      exact error_banner_starts _ _ _ _ (by decide)
    · rw [finish_output_error ts t _ hsrc]
      exact error_banner_ends _ _ _
    · rw [finish_output_error ts t _ hsrc]
      exact iff_of_true (error_banner_starts _ _ _ _ (by decide)) hsrc
  · refine ⟨?_, ?_, ?_⟩
    · rw [finish_output_ok ts t _ hsrc]
      exact result_banner_starts _ _ _ _ _ (by decide)
    · rw [finish_output_ok ts t _ hsrc]
      exact result_banner_ends _ _ _ _
    · rw [finish_output_ok ts t _ hsrc]
      exact iff_of_false (by simp [result_banner_not_error_marker]) hsrc

/-- Every error banner contains its final error message as a substring. -/
theorem error_banner_contains (ts fm fb : String) : fm.data <:+: (error_banner ts fm fb).data := by
  simp only [error_banner, String.data_append, List.append_assoc]
  refine ⟨"--- Wolfgank AI Error (".data ++ (ts.data ++ ") ---\n\n".data),
    fb.data ++ "\nPlease check logs and model availability.\n\n--- End of Report ---".data, ?_⟩
  simp [List.append_assoc]

/-- Predicate selecting error-severity log lines. -/
def is_error_log : LogEntry → Bool
  | (LogLevel.error, _) => true
  | _ => false

/-- The error-severity log lines of a run. -/
def error_logs (ls : List LogEntry) : List LogEntry :=
  ls.filter is_error_log

/-- C3 counterexample: with the primary unavailable but the secondary
pipeline present and succeeding, generate_text does not set source to
"Error", refuting the claim's unconditional lead-in. -/
theorem generate_text_secondary_success_not_error :
    s_hf.ollama_available = false ∧
    (generate_text B_ok "ts0" s_hf "p" "SEO Analyzer").source ≠ "Error" := by
  exact ⟨rfl, by decide⟩

/-- C3 amended: when the primary backend is unavailable and the secondary
path cannot produce a result, source is "Error" and error_message
identifies the cause: with the transformers dependency missing the banner
carries the message naming the missing Transformers library (and contains
the literal substring stating the library is not installed); with the
dependency present but initialization failing during the call, the
message names the failed fallback initialization; and the three cause
messages of the code are pairwise distinct. -/
theorem generate_text_error_causes (B : Backends) (ts p t : String) (s : AppState) :
    (s.ollama_available = false → s.TRANSFORMERS_AVAILABLE = false →
      (generate_text B ts s p t).source = "Error" ∧
      (generate_text B ts s p t).error_message = some no_backend_msg ∧
      py_in "the Transformers library is not installed" (generate_text B ts s p t).output = true) ∧
    (∀ e, s.ollama_available = false → s.TRANSFORMERS_AVAILABLE = true → s.hf_pipeline = none →
      B.hf_build = .error e →
      (generate_text B ts s p t).source = "Error" ∧
      (generate_text B ts s p t).error_message = some hf_init_fail_msg ∧
      py_in hf_init_fail_msg (generate_text B ts s p t).output = true) ∧
    (no_backend_msg ≠ hf_init_fail_msg ∧ no_backend_msg ≠ hf_absent_msg ∧
      hf_init_fail_msg ≠ hf_absent_msg) := by
  refine ⟨?_, ?_, by decide⟩
  · intro h1 h2
    unfold generate_text finish_generate generate_text_body
    simp only [h1, h2, Bool.false_eq_true, if_false]
    refine ⟨by trivial, by trivial, ?_⟩
    refine py_in_of_infix _ _ (List.IsInfix.trans ?_ (error_banner_contains ts no_backend_msg (fallback_info s)))
    have hsub : py_in_aux "the Transformers library is not installed".data no_backend_msg.data = true := by decide
    exact (py_in_aux_iff _ _).mp hsub
  · intro e h1 h2 h3 he
    unfold generate_text finish_generate generate_text_body hf_branch initialize_hf_pipeline hf_invoke_or_report
    simp only [h1, h2, h3, he, Bool.false_eq_true, if_false, if_true, Option.getD_some]
    refine ⟨by trivial, by trivial, ?_⟩
    exact py_in_of_infix _ _ (error_banner_contains ts hf_init_fail_msg _)

/-- Witness for the amended C3 at concrete failing inputs for both causes. -/
theorem generate_text_error_causes_check :
    ((generate_text B_err "ts0" s_none "p" "Meta Master").source = "Error" ∧
      (generate_text B_err "ts0" s_none "p" "Meta Master").error_message = some no_backend_msg ∧
      py_in "the Transformers library is not installed" (generate_text B_err "ts0" s_none "p" "Meta Master").output = true) ∧
    ((generate_text B_err "ts0" s_hf0 "p" "Meta Master").source = "Error" ∧
      (generate_text B_err "ts0" s_hf0 "p" "Meta Master").error_message = some hf_init_fail_msg ∧
      py_in hf_init_fail_msg (generate_text B_err "ts0" s_hf0 "p" "Meta Master").output = true) :=
  ⟨(generate_text_error_causes B_err "ts0" "p" "Meta Master" s_none).1 rfl rfl,
   (generate_text_error_causes B_err "ts0" "p" "Meta Master" s_hf0).2.1 "load failed" rfl rfl rfl rfl⟩

/-- C5: an exception raised by the invoked backend is caught inside
generate_text and turned into an error banner whose message carries the
original failure text and the source being attempted; exactly one backend
is tried per call (no primary-to-secondary failover), and exactly one
error log entry is emitted, referencing the attempted source label. -/
theorem generate_text_exception_handling (B : Backends) (ts p t e : String) (s : AppState) :
    (s.ollama_available = true → B.ollama_chat p = .error e →
      (generate_text B ts s p t).source = "Error" ∧
      (generate_text B ts s p t).output =
        error_banner ts ("Error during text generation using " ++ ollama_source ++ ": " ++ e)
          (fallback_info s) ∧
      py_in e (generate_text B ts s p t).output = true ∧
      py_in ollama_source (generate_text B ts s p t).output = true ∧
      error_logs (generate_text B ts s p t).logs =
        [(LogLevel.error, "Error during text generation via " ++ ollama_source ++ " for " ++ t ++ ": " ++ e)] ∧
      (generate_text B ts s p t).ollama_calls = 1 ∧
      (generate_text B ts s p t).hf_calls = 0 ∧
      (generate_text B ts s p t).init_calls = 0) ∧
    (s.ollama_available = false → s.TRANSFORMERS_AVAILABLE = true → s.hf_pipeline = some () →
      B.hf_generate p = .error e →
      (generate_text B ts s p t).source = "Error" ∧
      (generate_text B ts s p t).output =
        error_banner ts ("Error during text generation using " ++ hf_source ++ ": " ++ e)
          (fallback_info s) ∧
      py_in e (generate_text B ts s p t).output = true ∧
      py_in hf_source (generate_text B ts s p t).output = true ∧
      error_logs (generate_text B ts s p t).logs =
        [(LogLevel.error, "Error during text generation via " ++ hf_source ++ " for " ++ t ++ ": " ++ e)] ∧
      (generate_text B ts s p t).hf_calls = 1 ∧
      (generate_text B ts s p t).ollama_calls = 0 ∧
      (generate_text B ts s p t).init_calls = 0) := by
  constructor
  · intro h he
    unfold generate_text finish_generate generate_text_body
    simp only [h, he, if_true, Option.getD_some]
    refine ⟨by trivial, by trivial, ?_, ?_, ?_, by trivial, by trivial, by trivial⟩
    · refine py_in_of_infix _ _ (List.IsInfix.trans ?_ (error_banner_contains _ _ _))
      rw [String.data_append]
      exact (List.suffix_append _ _).isInfix
    · refine py_in_of_infix _ _ (List.IsInfix.trans ?_ (error_banner_contains _ _ _))
      simp only [String.data_append, List.append_assoc]
      exact List.infix_append' _ _ _
    · simp [error_logs, is_error_log]
  · intro h1 h2 h3 he
    unfold generate_text finish_generate generate_text_body hf_branch hf_invoke_or_report
    simp only [h1, h2, h3, he, Bool.false_eq_true, if_false, if_true, Option.getD_some]
    refine ⟨by trivial, by trivial, ?_, ?_, ?_, by trivial, by trivial, by trivial⟩
    · refine py_in_of_infix _ _ (List.IsInfix.trans ?_ (error_banner_contains _ _ _))
      rw [String.data_append]
      exact (List.suffix_append _ _).isInfix
    · refine py_in_of_infix _ _ (List.IsInfix.trans ?_ (error_banner_contains _ _ _))
      simp only [String.data_append, List.append_assoc]
      exact List.infix_append' _ _ _
    · simp [error_logs, is_error_log]

/-- Witness for C5 at a concrete raising primary backend. -/
theorem generate_text_exception_handling_check :
    (generate_text B_err "ts0" s_primary "p" "Article Forge").source = "Error" ∧
    (generate_text B_err "ts0" s_primary "p" "Article Forge").output =
      error_banner "ts0"
        ("Error during text generation using " ++ ollama_source ++ ": " ++ "connection refused")
        (fallback_info s_primary) ∧
    py_in "connection refused" (generate_text B_err "ts0" s_primary "p" "Article Forge").output = true ∧
    py_in ollama_source (generate_text B_err "ts0" s_primary "p" "Article Forge").output = true ∧
    error_logs (generate_text B_err "ts0" s_primary "p" "Article Forge").logs =
      [(LogLevel.error, "Error during text generation via " ++ ollama_source ++ " for " ++ "Article Forge" ++ ": " ++ "connection refused")] ∧
    (generate_text B_err "ts0" s_primary "p" "Article Forge").ollama_calls = 1 ∧
    (generate_text B_err "ts0" s_primary "p" "Article Forge").hf_calls = 0 ∧
    (generate_text B_err "ts0" s_primary "p" "Article Forge").init_calls = 0 :=
  (generate_text_exception_handling B_err "ts0" "p" "Article Forge" "connection refused" s_primary).1
    rfl rfl

/-- C8: a POST handler whose required field is absent returns 400 with an
error naming the field and never calls generate_text; otherwise, when the
generated string contains the error-banner marker the handler returns 500
with that string in the error field, and else 200 with it in the result
field. -/
theorem api_handler_validation (B : Backends) (ts : String) (s : AppState) :
    keyword_hunter B ts s none = { status := 400, body := .err "Topik diperlukan.", gen := none } ∧
    meta_master B ts s none none = { status := 400, body := .err "Konten diperlukan.", gen := none } ∧
    (∀ topic, topic ≠ "" →
      (py_in error_marker (generate_text B ts s (keyword_hunter_prompt topic) "Keyword Hunter").output = true →
        keyword_hunter B ts s (some topic) =
          { status := 500
            body := .err (generate_text B ts s (keyword_hunter_prompt topic) "Keyword Hunter").output
            gen := some (generate_text B ts s (keyword_hunter_prompt topic) "Keyword Hunter") }) ∧
      (py_in error_marker (generate_text B ts s (keyword_hunter_prompt topic) "Keyword Hunter").output = false →
        keyword_hunter B ts s (some topic) =
          { status := 200
            body := .ok (generate_text B ts s (keyword_hunter_prompt topic) "Keyword Hunter").output
            gen := some (generate_text B ts s (keyword_hunter_prompt topic) "Keyword Hunter") })) ∧
    (∀ content kw, content ≠ "" →
      (py_in error_marker (generate_text B ts s (meta_master_prompt content (kw.getD "")) "Meta Master").output = true →
        meta_master B ts s (some content) kw =
          { status := 500
            body := .err (generate_text B ts s (meta_master_prompt content (kw.getD "")) "Meta Master").output
            gen := some (generate_text B ts s (meta_master_prompt content (kw.getD "")) "Meta Master") }) ∧
      (py_in error_marker (generate_text B ts s (meta_master_prompt content (kw.getD "")) "Meta Master").output = false →
        meta_master B ts s (some content) kw =
          { status := 200
            body := .ok (generate_text B ts s (meta_master_prompt content (kw.getD "")) "Meta Master").output
            gen := some (generate_text B ts s (meta_master_prompt content (kw.getD "")) "Meta Master") })) := by
  refine ⟨rfl, rfl, ?_, ?_⟩
  · intro topic h
    constructor <;> intro hm <;> simp [keyword_hunter, wrap_generation, pyTruthy, h, hm]
  · intro content kw h
    constructor <;> intro hm <;> simp [meta_master, wrap_generation, pyTruthy, h, hm]

/-- Witness for C8: concrete missing-field, success and error-banner
round trips through the handlers. -/
theorem api_handler_validation_check :
    keyword_hunter B_ok "ts0" s_primary none = { status := 400, body := .err "Topik diperlukan.", gen := none } ∧
    keyword_hunter B_ok "ts0" s_primary (some "kopi lokal") =
      { status := 200
        body := .ok (generate_text B_ok "ts0" s_primary (keyword_hunter_prompt "kopi lokal") "Keyword Hunter").output
        gen := some (generate_text B_ok "ts0" s_primary (keyword_hunter_prompt "kopi lokal") "Keyword Hunter") } ∧
    keyword_hunter B_err "ts0" s_none (some "x") =
      { status := 500
        body := .err (generate_text B_err "ts0" s_none (keyword_hunter_prompt "x") "Keyword Hunter").output
        gen := some (generate_text B_err "ts0" s_none (keyword_hunter_prompt "x") "Keyword Hunter") } :=
  ⟨(api_handler_validation B_ok "ts0" s_primary).1,
   ((api_handler_validation B_ok "ts0" s_primary).2.2.1 "kopi lokal" (by decide)).2 (by decide),
   ((api_handler_validation B_err "ts0" s_none).2.2.1 "x" (by decide)).1 (by decide)⟩

/-- C9: a present but empty required field is treated exactly like a
missing field: the handler answers 400 with the missing-field error and
never invokes generation. -/
theorem api_handler_empty_field (B : Backends) (ts : String) (s : AppState) :
    keyword_hunter B ts s (some "") = keyword_hunter B ts s none ∧
    keyword_hunter B ts s (some "") = { status := 400, body := .err "Topik diperlukan.", gen := none } ∧
    (∀ kw, meta_master B ts s (some "") kw = meta_master B ts s none kw) ∧
    (∀ kw, meta_master B ts s (some "") kw = { status := 400, body := .err "Konten diperlukan.", gen := none }) :=
  ⟨rfl, rfl, fun _ => rfl, fun _ => rfl⟩

end App
